import Mathlib

/-!
Verification of the HTN-2025 personal media archive backend.

Shallow embedding of the enrichment-and-retrieval core:
* `backend/app/utils/embedding.py` (cosine similarity, text embedding guard),
* `backend/app/repository/audio_repository.py` (create/update/similarity search),
* `backend/app/repository/image_repository.py` (fetch of untagged images, update),
* `backend/app/utils/tagging.py` (batch tagging with dropped invalid items),
* `backend/app/utils/background_worker.py` (the enrichment worker tick),
* `backend/app/agent/agent.py` (conversational context cache).

Python floats are modelled as real numbers; Python `str` as `String`;
external capabilities (Gemini embedding, Gemini vision, the filesystem) as
oracle function parameters returning `Option`/`Except` values.
-/

namespace HTN

/-- Model of Python `str.strip()`: drop leading and trailing whitespace. -/
def pyStrip (s : String) : String :=
  ⟨((s.data.dropWhile Char.isWhitespace).reverse.dropWhile Char.isWhitespace).reverse⟩

/-- Model of Python `sep.join(parts)`. -/
def pyJoin (sep : String) : List String → String
  | [] => ""
  | [a] => a
  | a :: b :: rest => a ++ sep ++ pyJoin sep (b :: rest)

/-- Python truthiness of an optional string: `None` and `""` are falsy. -/
def pyTruthyStr : Option String → Bool
  | none => false
  | some s => s != ""

/-- Python truthiness of an optional float (here modelled on rationals, used for
GPS coordinates which undergo no arithmetic): `None` and `0.0` are falsy. -/
def pyTruthyRat : Option ℚ → Bool
  | none => false
  | some x => x != 0

/-! ## backend/app/utils/embedding.py -/

/-- `generate_text_embedding` (embedding.py lines 5-26).  The Gemini
`embed_content` call is the external embedding capability `cap`; a `none`
result of `cap` models any exception caught by the `except` clause. -/
def generate_text_embedding (cap : String → Option (List ℝ)) (text : String) :
    Option (List ℝ) :=
  if text = "" ∨ pyStrip text = "" then none
  else cap (pyStrip text)

/-- `sum(a * b for a, b in zip(embedding1, embedding2))` (embedding.py line 46). -/
noncomputable def dotProduct (a b : List ℝ) : ℝ :=
  (List.zipWith (· * ·) a b).sum

/-- `sum(a * a for a in embedding)` (embedding.py lines 49-50). -/
noncomputable def sumSquares (a : List ℝ) : ℝ :=
  (a.map fun x => x * x).sum

/-- `math.sqrt(sum(a * a for a in embedding))` (embedding.py lines 49-50). -/
noncomputable def magnitude (a : List ℝ) : ℝ :=
  Real.sqrt (sumSquares a)

/-- `calculate_cosine_similarity` (embedding.py lines 29-59): returns `0.0` on
empty or length-mismatched inputs, `0.0` when either magnitude is zero, and the
normalized dot product otherwise.  (The `try`/`except` cannot fire on lists of
floats; the guards are the whole of the defensive behaviour.) -/
noncomputable def calculate_cosine_similarity (embedding1 embedding2 : List ℝ) : ℝ :=
  if embedding1 = [] ∨ embedding2 = [] ∨ embedding1.length ≠ embedding2.length then 0
  else
    let dot_product := dotProduct embedding1 embedding2
    let magnitude1 := magnitude embedding1
    let magnitude2 := magnitude embedding2
    if magnitude1 = 0 ∨ magnitude2 = 0 then 0
    else dot_product / (magnitude1 * magnitude2)

theorem sumSquares_nonneg (a : List ℝ) : 0 ≤ sumSquares a := by
  induction a with
  | nil => simp [sumSquares]
  | cons x xs ih =>
      simp only [sumSquares, List.map_cons, List.sum_cons] at *
      nlinarith [mul_self_nonneg x]

theorem sumSquares_cons (x : ℝ) (xs : List ℝ) :
    sumSquares (x :: xs) = x * x + sumSquares xs := by
  simp [sumSquares]

/-- One step of the Cauchy–Schwarz chain, stated over plain reals. -/
theorem abs_mul_add_sqrt_le (x y A B : ℝ) (hA : 0 ≤ A) (hB : 0 ≤ B) :
    |x| * |y| + Real.sqrt A * Real.sqrt B ≤
      Real.sqrt (x * x + A) * Real.sqrt (y * y + B) := by
  have hL : 0 ≤ |x| * |y| + Real.sqrt A * Real.sqrt B := by positivity
  have e2 : Real.sqrt A ^ 2 = A := Real.sq_sqrt hA
  have e3 : Real.sqrt B ^ 2 = B := Real.sq_sqrt hB
  have am : 2 * (|x| * Real.sqrt B) * (|y| * Real.sqrt A) ≤
      (|x| * Real.sqrt B) ^ 2 + (|y| * Real.sqrt A) ^ 2 := two_mul_le_add_sq _ _
  have hsq : (|x| * |y| + Real.sqrt A * Real.sqrt B) ^ 2 ≤ (x * x + A) * (y * y + B) := by
    have hx : |x| ^ 2 = x * x := by rw [sq_abs]; ring
    have hy : |y| ^ 2 = y * y := by rw [sq_abs]; ring
    nlinarith [am, e2, e3, hx, hy]
  calc |x| * |y| + Real.sqrt A * Real.sqrt B
      = Real.sqrt ((|x| * |y| + Real.sqrt A * Real.sqrt B) ^ 2) :=
        (Real.sqrt_sq hL).symm
    _ ≤ Real.sqrt ((x * x + A) * (y * y + B)) := Real.sqrt_le_sqrt hsq
    _ = Real.sqrt (x * x + A) * Real.sqrt (y * y + B) := by
        rw [Real.sqrt_mul (by nlinarith [mul_self_nonneg x])]

/-- Cauchy–Schwarz for the list-based dot product of `embedding.py`. -/
theorem abs_dotProduct_le (a b : List ℝ) :
    |dotProduct a b| ≤ magnitude a * magnitude b := by
  induction a generalizing b with
  | nil =>
      simp only [dotProduct, List.zipWith_nil_left, List.sum_nil, abs_zero]
      exact mul_nonneg (Real.sqrt_nonneg _) (Real.sqrt_nonneg _)
  | cons x xs ih =>
      cases b with
      | nil =>
          simp only [dotProduct, List.zipWith_nil_right, List.sum_nil, abs_zero]
          exact mul_nonneg (Real.sqrt_nonneg _) (Real.sqrt_nonneg _)
      | cons y ys =>
          have hstep : |x * y + dotProduct xs ys| ≤
              |x| * |y| + magnitude xs * magnitude ys := by
            calc |x * y + dotProduct xs ys| ≤ |x * y| + |dotProduct xs ys| := abs_add _ _
              _ ≤ |x| * |y| + magnitude xs * magnitude ys := by
                  rw [abs_mul]; exact add_le_add le_rfl (ih ys)
          have hmain : |x| * |y| + magnitude xs * magnitude ys ≤
              magnitude (x :: xs) * magnitude (y :: ys) := by
            simp only [magnitude, sumSquares_cons]
            exact abs_mul_add_sqrt_le x y (sumSquares xs) (sumSquares ys)
              (sumSquares_nonneg xs) (sumSquares_nonneg ys)
          have hd : dotProduct (x :: xs) (y :: ys) = x * y + dotProduct xs ys := by
            simp [dotProduct]
          rw [hd]
          exact le_trans hstep hmain

theorem dotProduct_le_magnitudes (a b : List ℝ) :
    dotProduct a b ≤ magnitude a * magnitude b :=
  le_trans (le_abs_self _) (abs_dotProduct_le a b)

/-- Every value `calculate_cosine_similarity` can return is at most `1`. -/
theorem calculate_cosine_similarity_le_one (a b : List ℝ) :
    calculate_cosine_similarity a b ≤ 1 := by
  unfold calculate_cosine_similarity
  split
  · exact zero_le_one
  · simp only
    split
    · exact zero_le_one
    · rename_i hguard hmag
      push_neg at hmag
      have hm1 : 0 < magnitude a := lt_of_le_of_ne (Real.sqrt_nonneg _) (Ne.symm hmag.1)
      have hm2 : 0 < magnitude b := lt_of_le_of_ne (Real.sqrt_nonneg _) (Ne.symm hmag.2)
      rw [div_le_one (mul_pos hm1 hm2)]
      exact dotProduct_le_magnitudes a b

/-! ## backend/app/repository/audio_repository.py

The SQLAlchemy `AudioModel` class is imported from `database.models` throughout
the repository (repositories, `check_audio.py`, the agent) but its declaration
is not among the source files; only its callers are.  Its record shape below is
therefore modelled from the spec. -/

/-- Modelled from the spec: `AudioModel` (the spec's AudioRecord, §3) — an
identity, a creation timestamp, `transcription: optional string` and
`embedding: optional vector of float`.  The class declaration itself is missing
from the sources; every use site (id, transcription, embedding, timestamp)
matches these fields. -/
structure AudioModel where
  id : String
  transcription : Option String
  embedding : Option (List ℝ)
  timestamp : Nat

/-- `AudioRepository.create_audio` (audio_repository.py lines 44-75): derives the
embedding from the transcription when the latter is truthy after stripping.
The generated id and the `datetime.utcnow()` timestamp are parameters. -/
noncomputable def create_audio (cap : String → Option (List ℝ))
    (transcription : Option String) (newId : String) (now : Nat) : AudioModel :=
  let embedding : Option (List ℝ) :=
    match transcription with
    | some t => if t ≠ "" ∧ pyStrip t ≠ "" then generate_text_embedding cap t else none
    | none => none
  { id := newId, transcription := transcription, embedding := embedding,
    timestamp := now }

/-- `AudioRepository.update_audio` (audio_repository.py lines 208-242), modelled
at the level of the single addressed record: with a `None` transcription
argument `update_data` stays empty and the record is returned unchanged;
otherwise the transcription is replaced and the embedding regenerated (set to
`NULL` when the new transcription strips to empty). -/
noncomputable def update_audio (cap : String → Option (List ℝ))
    (audio : AudioModel) (transcription : Option String) : AudioModel :=
  match transcription with
  | none => audio
  | some t =>
      if pyStrip t ≠ "" then
        { audio with transcription := some t, embedding := generate_text_embedding cap t }
      else
        { audio with transcription := some t, embedding := none }

/-- Sort key of `similarities.sort(key=lambda x: x[1], reverse=True)`
(audio_repository.py line 149): descending similarity score. -/
def byScoreDesc (p q : AudioModel × ℝ) : Prop := q.2 ≤ p.2

noncomputable instance : DecidableRel byScoreDesc :=
  fun p q => inferInstanceAs (Decidable (q.2 ≤ p.2))

instance : IsTotal (AudioModel × ℝ) byScoreDesc :=
  ⟨fun p q => le_total q.2 p.2⟩

instance : IsTrans (AudioModel × ℝ) byScoreDesc :=
  ⟨fun _ _ _ h1 h2 => le_trans h2 h1⟩

/-- The `WHERE` clause of the candidate query (audio_repository.py lines
130-135): embedding not `NULL`, transcription not `NULL` and not `""`. -/
def hasEmbeddingAndTranscription (a : AudioModel) : Bool :=
  a.embedding.isSome &&
    (match a.transcription with
     | some t => t != ""
     | none => false)

/-- The scoring loop of `search_audio_by_similarity` (audio_repository.py lines
139-146): for each candidate whose embedding is present (the `is not None and
isinstance(..., list)` check, which in the typed model is the `some` match),
compute the similarity and keep the pair when `similarity >= threshold`. -/
noncomputable def similarityScores (query_embedding : List ℝ) (threshold : ℝ)
    (audio_records : List AudioModel) : List (AudioModel × ℝ) :=
  audio_records.filterMap fun audio =>
    match audio.embedding with
    | some emb =>
        let similarity := calculate_cosine_similarity query_embedding emb
        if threshold ≤ similarity then some (audio, similarity) else none
    | none => none

/-- `AudioRepository.search_audio_by_similarity` (audio_repository.py lines
110-150): embed the query (empty result on falsy embedding), fetch candidates
with embedding and non-empty transcription, score each, keep scores `>=
threshold`, sort descending by score, truncate to `limit`.  The store is the
database's audio table; `cap` is the embedding capability. -/
noncomputable def search_audio_by_similarity (cap : String → Option (List ℝ))
    (store : List AudioModel) (query_text : String) (threshold : ℝ) (limit : Nat) :
    List (AudioModel × ℝ) :=
  match generate_text_embedding cap query_text with
  | none => []
  | some query_embedding =>
      if query_embedding = [] then []
      else
        (((similarityScores query_embedding threshold
            (store.filter hasEmbeddingAndTranscription)).insertionSort
              byScoreDesc).take limit)

theorem pyStrip_empty : pyStrip "" = "" := rfl

theorem ne_empty_of_pyStrip_ne {s : String} (h : pyStrip s ≠ "") : s ≠ "" := by
  intro he
  exact h (he ▸ pyStrip_empty)

theorem generate_text_embedding_of_strip_ne (cap : String → Option (List ℝ))
    {s : String} (h : pyStrip s ≠ "") :
    generate_text_embedding cap s = cap (pyStrip s) := by
  unfold generate_text_embedding
  rw [if_neg]
  push_neg
  exact ⟨ne_empty_of_pyStrip_ne h, h⟩

/-- Characterisation of membership in the scoring loop's output. -/
theorem mem_similarityScores {qe : List ℝ} {θ : ℝ} {l : List AudioModel}
    {p : AudioModel × ℝ} (hp : p ∈ similarityScores qe θ l) :
    ∃ a ∈ l, ∃ emb, a.embedding = some emb ∧
      θ ≤ calculate_cosine_similarity qe emb ∧
      p = (a, calculate_cosine_similarity qe emb) := by
  unfold similarityScores at hp
  obtain ⟨a, ha, hfa⟩ := List.mem_filterMap.mp hp
  cases hemb : a.embedding with
  | none => rw [hemb] at hfa; exact absurd hfa (by simp)
  | some emb =>
      rw [hemb] at hfa
      simp only at hfa
      by_cases hth : θ ≤ calculate_cosine_similarity qe emb
      · rw [if_pos hth] at hfa
        exact ⟨a, ha, emb, hemb, hth, (Option.some.inj hfa).symm⟩
      · rw [if_neg hth] at hfa
        exact absurd hfa (by simp)

/-- When every score misses the threshold, the scoring loop keeps nothing. -/
theorem similarityScores_eq_nil {qe : List ℝ} {θ : ℝ} {l : List AudioModel}
    (h : ∀ emb : List ℝ, ¬ θ ≤ calculate_cosine_similarity qe emb) :
    similarityScores qe θ l = [] := by
  unfold similarityScores
  refine List.filterMap_eq_nil_iff.mpr fun a _ => ?_
  cases hemb : a.embedding with
  | none => rfl
  | some emb => simp [if_neg (h emb)]

/-- Reduction of the search once the query embedding is known. -/
theorem search_audio_by_similarity_eq_some {cap : String → Option (List ℝ)}
    {store : List AudioModel} {query_text : String} {threshold : ℝ} {limit : Nat}
    {qe : List ℝ} (hq : generate_text_embedding cap query_text = some qe) :
    search_audio_by_similarity cap store query_text threshold limit =
      if qe = [] then []
      else (((similarityScores qe threshold
          (store.filter hasEmbeddingAndTranscription)).insertionSort
            byScoreDesc).take limit) := by
  unfold search_audio_by_similarity
  rw [hq]

/-- C1: for every query whose embedding succeeds and every threshold and limit,
`search_audio_by_similarity` (the repository implementation of `find_similar`)
returns pairs sorted non-increasing by score, of length at most `limit`, where
every pair's record is a stored record with a non-null embedding and non-empty
transcription and every score is the cosine similarity of the query embedding
against that record's embedding, at least `threshold`. -/
theorem search_audio_by_similarity_spec (cap : String → Option (List ℝ))
    (store : List AudioModel) (query_text : String) (threshold : ℝ) (limit : Nat)
    (qe : List ℝ) (hq : generate_text_embedding cap query_text = some qe) :
    List.Sorted byScoreDesc
      (search_audio_by_similarity cap store query_text threshold limit) ∧
    (search_audio_by_similarity cap store query_text threshold limit).length ≤ limit ∧
    ∀ p ∈ search_audio_by_similarity cap store query_text threshold limit,
      threshold ≤ p.2 ∧ p.1 ∈ store ∧ hasEmbeddingAndTranscription p.1 = true ∧
      ∃ emb, p.1.embedding = some emb ∧
        p.2 = calculate_cosine_similarity qe emb := by
  rw [search_audio_by_similarity_eq_some hq]
  by_cases hqe : qe = []
  · simp [hqe, List.Sorted]
  · rw [if_neg hqe]
    refine ⟨?_, ?_, ?_⟩
    · exact (List.sorted_insertionSort byScoreDesc _).sublist (List.take_sublist _ _)
    · exact List.length_take_le _ _
    · intro p hp
      have hp1 : p ∈ (similarityScores qe threshold
          (store.filter hasEmbeddingAndTranscription)).insertionSort byScoreDesc :=
        (List.take_sublist _ _).subset hp
      have hp2 : p ∈ similarityScores qe threshold
          (store.filter hasEmbeddingAndTranscription) :=
        (List.mem_insertionSort byScoreDesc).mp hp1
      obtain ⟨a, ha, emb, hemb, hth, hpa⟩ := mem_similarityScores hp2
      obtain ⟨hastore, hapred⟩ := List.mem_filter.mp ha
      subst hpa
      exact ⟨hth, hastore, hapred, emb, hemb, rfl⟩

/-- C1 witness: a concrete instantiation of the hypothesis and conclusion. -/
theorem search_audio_by_similarity_spec_witness :
    generate_text_embedding (fun _ => some [1]) "dog" = some [1] ∧
    (List.Sorted byScoreDesc
      (search_audio_by_similarity (fun _ => some [1]) [] "dog" 0.7 10) ∧
    (search_audio_by_similarity (fun _ => some [1]) [] "dog" 0.7 10).length ≤ 10 ∧
    ∀ p ∈ search_audio_by_similarity (fun _ => some [1]) [] "dog" 0.7 10,
      (0.7 : ℝ) ≤ p.2 ∧ p.1 ∈ ([] : List AudioModel) ∧
      hasEmbeddingAndTranscription p.1 = true ∧
      ∃ emb, p.1.embedding = some emb ∧
        p.2 = calculate_cosine_similarity [1] emb) :=
  ⟨rfl, search_audio_by_similarity_spec (fun _ => some [1]) [] "dog" 0.7 10 [1] rfl⟩

/-- C6: `calculate_cosine_similarity` is total by construction and returns
exactly `0.0` whenever either vector is empty, the vectors differ in length, or
either vector has zero magnitude. -/
theorem calculate_cosine_similarity_guards (e1 e2 : List ℝ)
    (h : e1 = [] ∨ e2 = [] ∨ e1.length ≠ e2.length ∨
      magnitude e1 = 0 ∨ magnitude e2 = 0) :
    calculate_cosine_similarity e1 e2 = 0 := by
  by_cases hg : e1 = [] ∨ e2 = [] ∨ e1.length ≠ e2.length
  · unfold calculate_cosine_similarity
    rw [if_pos hg]
  · have hm : magnitude e1 = 0 ∨ magnitude e2 = 0 := by tauto
    unfold calculate_cosine_similarity
    rw [if_neg hg]
    simp only
    rw [if_pos hm]

/-- C6 witness. -/
theorem calculate_cosine_similarity_guards_witness :
    (([] : List ℝ) = [] ∨ [(1 : ℝ)] = [] ∨ ([] : List ℝ).length ≠ [(1 : ℝ)].length ∨
      magnitude [] = 0 ∨ magnitude [(1 : ℝ)] = 0) ∧
    calculate_cosine_similarity [] [(1 : ℝ)] = 0 :=
  ⟨Or.inl rfl, calculate_cosine_similarity_guards [] [(1 : ℝ)] (Or.inl rfl)⟩

/-- C7: with a threshold strictly above `1`, the similarity search returns the
empty list for every query, store and limit, because no cosine-similarity score
exceeds `1`. -/
theorem search_audio_by_similarity_empty_of_threshold_gt_one
    (cap : String → Option (List ℝ)) (store : List AudioModel)
    (query_text : String) (threshold : ℝ) (limit : Nat) (h : 1 < threshold) :
    search_audio_by_similarity cap store query_text threshold limit = [] := by
  cases hq : generate_text_embedding cap query_text with
  | none => unfold search_audio_by_similarity; rw [hq]
  | some qe =>
      rw [search_audio_by_similarity_eq_some hq]
      by_cases hqe : qe = []
      · rw [if_pos hqe]
      · rw [if_neg hqe]
        have hnil : similarityScores qe threshold
            (store.filter hasEmbeddingAndTranscription) = [] :=
          similarityScores_eq_nil fun emb hle =>
            absurd (le_trans hle (calculate_cosine_similarity_le_one qe emb))
              (not_le.mpr h)
        rw [hnil]
        simp [List.insertionSort]

/-- C7 witness. -/
theorem search_audio_empty_witness :
    (1 : ℝ) < 2 ∧
    search_audio_by_similarity (fun _ => some [1])
      [⟨"a0", some "hello", some [1], 0⟩] "hello" 2 10 = [] :=
  ⟨one_lt_two,
    search_audio_by_similarity_empty_of_threshold_gt_one (fun _ => some [1])
      [⟨"a0", some "hello", some [1], 0⟩] "hello" 2 10 one_lt_two⟩

/-- C8 counterexample: `create_audio` with the whitespace-only transcription
`" "` produces a record whose transcription is non-empty but whose embedding is
`NULL`, refuting "embedding is non-null iff transcription is non-empty" even
with an always-succeeding embedding capability. -/
theorem audio_invariant_counterexample :
    (create_audio (fun _ => some [1]) (some " ") "a0" 0).transcription = some " " ∧
    (" " : String) ≠ "" ∧
    (create_audio (fun _ => some [1]) (some " ") "a0" 0).embedding = none :=
  ⟨rfl, by decide, rfl⟩

/-- C8 (amended): after `create_audio` the embedding is non-null iff the
transcription argument strips to a non-empty string and the embedding
capability returns a vector; a non-null embedding still implies a non-empty
transcription; after `update_audio` with a non-`None` transcription the same
characterisation holds, and `update_audio` with `None` leaves the record
unchanged. -/
theorem audio_embedding_invariant (cap : String → Option (List ℝ))
    (t : Option String) (newId : String) (now : Nat) (a : AudioModel)
    (t' : String) :
    ((create_audio cap t newId now).embedding.isSome = true ↔
      ∃ s, t = some s ∧ pyStrip s ≠ "" ∧ (cap (pyStrip s)).isSome = true) ∧
    ((create_audio cap t newId now).embedding.isSome = true →
      ∃ s, (create_audio cap t newId now).transcription = some s ∧ s ≠ "") ∧
    ((update_audio cap a (some t')).embedding.isSome = true ↔
      pyStrip t' ≠ "" ∧ (cap (pyStrip t')).isSome = true) ∧
    update_audio cap a none = a := by
  refine ⟨?_, ?_, ?_, rfl⟩
  · cases t with
    | none => simp [create_audio]
    | some s =>
        by_cases hs : pyStrip s ≠ ""
        · have hcond : s ≠ "" ∧ pyStrip s ≠ "" := ⟨ne_empty_of_pyStrip_ne hs, hs⟩
          simp only [create_audio, if_pos hcond,
            generate_text_embedding_of_strip_ne cap hs]
          constructor
          · intro hsome; exact ⟨s, rfl, hs, hsome⟩
          · rintro ⟨s', hs', _, hcap⟩
            obtain rfl := Option.some.inj hs'
            exact hcap
        · push_neg at hs
          have hcond : ¬ (s ≠ "" ∧ pyStrip s ≠ "") := by
            rintro ⟨_, h2⟩; exact h2 hs
          simp only [create_audio, if_neg hcond, Option.isSome_none]
          constructor
          · intro h; exact absurd h (by simp)
          · rintro ⟨s', hs', hstrip, _⟩
            obtain rfl := Option.some.inj hs'
            exact absurd hs hstrip
  · cases t with
    | none => intro h; exact absurd h (by simp [create_audio])
    | some s =>
        intro hsome
        refine ⟨s, rfl, ?_⟩
        intro he
        subst he
        revert hsome
        simp [create_audio, pyStrip_empty]
  · by_cases hs : pyStrip t' ≠ ""
    · simp only [update_audio, if_pos hs,
        generate_text_embedding_of_strip_ne cap hs]
      exact ⟨fun h => ⟨hs, h⟩, fun h => h.2⟩
    · simp only [update_audio, if_neg hs, Option.isSome_none]
      constructor
      · intro h; exact absurd h (by simp)
      · rintro ⟨hstrip, _⟩; exact absurd hstrip hs

/-- C8 witness. -/
theorem audio_embedding_invariant_witness :
    (((create_audio (fun _ => some [1]) (some "hi") "a0" 0).embedding.isSome = true ↔
      ∃ s, (some "hi" : Option String) = some s ∧ pyStrip s ≠ "" ∧
        ((fun _ => some [(1 : ℝ)]) (pyStrip s)).isSome = true) ∧
    ((create_audio (fun _ => some [1]) (some "hi") "a0" 0).embedding.isSome = true →
      ∃ s, (create_audio (fun _ => some [1]) (some "hi") "a0" 0).transcription
        = some s ∧ s ≠ "") ∧
    ((update_audio (fun _ => some [1]) ⟨"b0", none, none, 0⟩
        (some "yo")).embedding.isSome = true ↔
      pyStrip "yo" ≠ "" ∧ ((fun _ => some [(1 : ℝ)]) (pyStrip "yo")).isSome = true) ∧
    update_audio (fun _ => some [1]) ⟨"b0", none, none, 0⟩ none
      = ⟨"b0", none, none, 0⟩) :=
  audio_embedding_invariant (fun _ => some [1]) (some "hi") "a0" 0
    ⟨"b0", none, none, 0⟩ "yo"

/-! ## backend/database/models.py and backend/app/repository/image_repository.py

`ImageModel` columns follow `database/models.py`; timestamps are modelled as
naturals, GPS floats as rationals (they undergo no arithmetic).  The
`audio_id` reference column is modelled from the spec (`audio_ref: optional
AudioRecord id`, §3): the repository and agent read and write it, but the
schema file under the sources does not declare it.  The `_enrich_*_with_base64`
helpers only attach the raw base64 payload as an extra attribute and are not
modelled (no claim depends on the payload). -/

structure ImageModel where
  id : String
  timestamp : Nat
  tagged : Bool
  embeddings : Option (List ℚ)
  description : Option String
  tags : List String
  path : String
  audio_id : Option String
  latitude : Option ℚ
  longitude : Option ℚ
deriving DecidableEq

/-- `order_by(ImageModel.timestamp.desc())`: newer records first. -/
def imageTsDesc (a b : ImageModel) : Prop := b.timestamp ≤ a.timestamp

instance : DecidableRel imageTsDesc :=
  fun a b => inferInstanceAs (Decidable (b.timestamp ≤ a.timestamp))

instance : IsTotal ImageModel imageTsDesc := ⟨fun a b => le_total b.timestamp a.timestamp⟩

instance : IsTrans ImageModel imageTsDesc := ⟨fun _ _ _ h1 h2 => le_trans h2 h1⟩

/-- `ImageRepository.get_untagged_images` (image_repository.py lines 191-203):
images with `tagged == False`, ordered by `timestamp.desc()` (newest first),
offset by `skip`, limited to `limit`. -/
def get_untagged_images (store : List ImageModel) (skip limit : Nat) :
    List ImageModel :=
  ((((store.filter fun i => !i.tagged).insertionSort imageTsDesc).drop skip).take limit)

/-- `ImageRepository.update_image` (image_repository.py lines 310-348), modelled
on the image table: each argument updates its column when it is not `None`.
The arguments follow the Python signature order. -/
def update_image (store : List ImageModel) (image_id : String)
    (description : Option String) (tags : Option (List String))
    (embeddings : Option (List ℚ)) (tagged : Option Bool)
    (audio_id : Option String) (latitude longitude : Option ℚ) :
    List ImageModel :=
  store.map fun img =>
    if img.id = image_id then
      { img with
        description := match description with
          | some d => some d
          | none => img.description,
        tags := tags.getD img.tags,
        embeddings := match embeddings with
          | some e => some e
          | none => img.embeddings,
        tagged := tagged.getD img.tagged,
        audio_id := match audio_id with
          | some x => some x
          | none => img.audio_id,
        latitude := match latitude with
          | some x => some x
          | none => img.latitude,
        longitude := match longitude with
          | some x => some x
          | none => img.longitude }
    else img

/-! ## backend/app/utils/tagging.py -/

/-- One per-image analysis object of the Gemini batch response (tagging.py
prompt, lines 84-105).  The worker reads only `tags` and `description`
(background_worker.py lines 38-39); the remaining keys (`image_index`,
`objects`, `scene_type`, `colors`) are carried nowhere and omitted. -/
structure TagResult where
  tags : List String
  description : String
deriving DecidableEq

/-- Return value of `get_image_tags_batch_as_parts`: either the parsed
`batch_results` list together with the `image_paths` of the successfully
loaded images, or a dict with an `"error"` key. -/
inductive TagOutcome where
  | ok (batch_results : List TagResult) (image_paths : List String)
  | error (msg : String)
deriving DecidableEq

/-- `get_image_tags_batch_as_parts` (tagging.py lines 27-167): each path is
read and decoded (`readImage`, covering the file read, the data-URL split and
the base64 decode; `none` models the caught per-item exception, which silently
drops the item).  If no valid image remains (`len(parts) <= 1`), return the
`"No valid images provided"` error without calling the capability.  Otherwise
the byte parts of the valid images are sent to the Gemini capability
`generate`, whose `Except` covers the API exception, the empty response and
the JSON parse failure; on success the parsed array is returned alongside the
valid image paths.  (`max_tags` shapes only the prompt text and is omitted.) -/
def get_image_tags_batch_as_parts (readImage : String → Option String)
    (generate : List String → Except String (List TagResult))
    (image_paths : List String) : TagOutcome :=
  let valid := image_paths.filterMap fun p => (readImage p).map fun bytes => (p, bytes)
  if valid.isEmpty then .error "No valid images provided"
  else
    match generate (valid.map Prod.snd) with
    | .ok batch_results => .ok batch_results (valid.map Prod.fst)
    | .error e => .error e

/-! ## backend/app/utils/background_worker.py -/

/-- The commit loop of `fire_image_tagging_worker` (background_worker.py lines
33-47): `for i, result in enumerate(batch_results): if i < len(untagged_images)`
pairs `result` positionally with `untagged_images[i]` — i.e. iterates over
`untagged_images.zip batch_results` — and updates each record.  `updateOk id`
models whether the per-record `update_image` database call succeeds; when it
raises, the exception propagates to the tick-level `except` (line 55), so the
loop aborts and the remaining pairs are not committed, while the updates
already committed persist. -/
def commitLoop (updateOk : String → Bool)
    (pairs : List (ImageModel × TagResult)) (store : List ImageModel) :
    List ImageModel :=
  match pairs with
  | [] => store
  | (image, result) :: rest =>
      if updateOk image.id then
        commitLoop updateOk rest
          (update_image store image.id (some result.description) (some result.tags)
            none (some true) none none none)
      else store

/-- One tick of `fire_image_tagging_worker` (background_worker.py lines 9-56):
fetch up to 10 untagged images; if none, do nothing; otherwise send their
paths to batch tagging; on an `"error"` outcome only log; on success run the
commit loop.  The function returns the store after the tick. -/
def fire_image_tagging_worker_tick (readImage : String → Option String)
    (generate : List String → Except String (List TagResult))
    (updateOk : String → Bool) (store : List ImageModel) : List ImageModel :=
  let untagged_images := get_untagged_images store 0 10
  if untagged_images.isEmpty then store
  else
    let image_paths := untagged_images.map (·.path)
    match get_image_tags_batch_as_parts readImage generate image_paths with
    | .error _ => store
    | .ok batch_results _valid_paths =>
        commitLoop updateOk (untagged_images.zip batch_results) store

/-- C3 counterexample: with two untagged records of timestamps 1 and 2 the
fetch returns the newer record first, so the fetched batch is not ordered
oldest-first (ascending by timestamp) as claimed. -/
theorem get_untagged_images_counterexample :
    ¬ List.Pairwise (fun a b : ImageModel => a.timestamp ≤ b.timestamp)
      (get_untagged_images
        [⟨"i1", 1, false, none, none, [], "p1", none, none, none⟩,
         ⟨"i2", 2, false, none, none, [], "p2", none, none, none⟩] 0 10) := by
  decide

/-- C3 (amended): the worker's fetch (`get_untagged_images` with the worker's
`limit=10`) returns at most 10 records, ordered newest-first (descending by
timestamp), all untagged and all from the store. -/
theorem get_untagged_images_spec (store : List ImageModel) :
    (get_untagged_images store 0 10).length ≤ 10 ∧
    List.Sorted imageTsDesc (get_untagged_images store 0 10) ∧
    ∀ i ∈ get_untagged_images store 0 10, i.tagged = false ∧ i ∈ store := by
  refine ⟨List.length_take_le _ _, ?_, ?_⟩
  · unfold get_untagged_images
    rw [List.drop_zero]
    exact (List.sorted_insertionSort imageTsDesc _).sublist (List.take_sublist _ _)
  · intro i hi
    unfold get_untagged_images at hi
    rw [List.drop_zero] at hi
    have h1 : i ∈ (store.filter fun i => !i.tagged).insertionSort imageTsDesc :=
      (List.take_sublist _ _).subset hi
    have h2 : i ∈ store.filter fun i => !i.tagged :=
      (List.mem_insertionSort imageTsDesc).mp h1
    obtain ⟨hstore, hpred⟩ := List.mem_filter.mp h2
    exact ⟨by simpa using hpred, hstore⟩

/-- C3 witness. -/
theorem get_untagged_images_spec_witness :
    (get_untagged_images
        [⟨"i1", 1, false, none, none, [], "p1", none, none, none⟩] 0 10).length ≤ 10 ∧
    List.Sorted imageTsDesc
      (get_untagged_images
        [⟨"i1", 1, false, none, none, [], "p1", none, none, none⟩] 0 10) ∧
    ∀ i ∈ get_untagged_images
        [⟨"i1", 1, false, none, none, [], "p1", none, none, none⟩] 0 10,
      i.tagged = false ∧
      i ∈ [(⟨"i1", 1, false, none, none, [], "p1", none, none, none⟩ : ImageModel)] :=
  get_untagged_images_spec [⟨"i1", 1, false, none, none, [], "p1", none, none, none⟩]

/-- C5: when the batch analysis of a tick returns an `"error"` outcome, the
tick commits nothing — the store is unchanged — and every fetched record of
that tick still has `tagged = false`, so the whole batch is retried later. -/
theorem worker_tick_unchanged_on_error (readImage : String → Option String)
    (generate : List String → Except String (List TagResult))
    (updateOk : String → Bool) (store : List ImageModel) (e : String)
    (h : get_image_tags_batch_as_parts readImage generate
        ((get_untagged_images store 0 10).map (·.path)) = .error e) :
    fire_image_tagging_worker_tick readImage generate updateOk store = store ∧
    ∀ i ∈ get_untagged_images store 0 10, i.tagged = false := by
  constructor
  · by_cases hempty : (get_untagged_images store 0 10).isEmpty = true
    · simp [fire_image_tagging_worker_tick, hempty]
    · simp only [fire_image_tagging_worker_tick, hempty, if_false, Bool.false_eq_true]
      rw [h]
  · intro i hi
    exact ((get_untagged_images_spec store).2.2 i hi).1

/-- C5 witness. -/
theorem worker_tick_unchanged_on_error_witness :
    get_image_tags_batch_as_parts (fun _ => some "B") (fun _ => .error "boom")
      ((get_untagged_images
        [⟨"i1", 1, false, none, none, [], "p1", none, none, none⟩] 0 10).map
          (·.path)) = .error "boom" ∧
    (fire_image_tagging_worker_tick (fun _ => some "B") (fun _ => .error "boom")
      (fun _ => true)
      [⟨"i1", 1, false, none, none, [], "p1", none, none, none⟩] =
      [⟨"i1", 1, false, none, none, [], "p1", none, none, none⟩] ∧
    ∀ i ∈ get_untagged_images
        [⟨"i1", 1, false, none, none, [], "p1", none, none, none⟩] 0 10,
      i.tagged = false) :=
  ⟨rfl, worker_tick_unchanged_on_error (fun _ => some "B") (fun _ => .error "boom")
    (fun _ => true) [⟨"i1", 1, false, none, none, [], "p1", none, none, none⟩]
    "boom" rfl⟩

/-- C4 counterexample: a batch of two records whose analysis succeeded with a
result for each; the update of the first record fails, and the commit loop
aborts, so the second record is never committed (the tick leaves the store
unchanged), refuting "does not prevent the remaining pairs of the same batch
from being committed". -/
theorem worker_commit_abort_counterexample :
    get_image_tags_batch_as_parts (fun _ => some "B")
      (fun bs => .ok (bs.map fun b => TagResult.mk [b] b)) ["pA", "pB"] =
      .ok [TagResult.mk ["B"] "B", TagResult.mk ["B"] "B"] ["pA", "pB"] ∧
    fire_image_tagging_worker_tick (fun _ => some "B")
      (fun bs => .ok (bs.map fun b => TagResult.mk [b] b))
      (fun i => i != "iA")
      [⟨"iA", 2, false, none, none, [], "pA", none, none, none⟩,
       ⟨"iB", 1, false, none, none, [], "pB", none, none, none⟩] =
      [⟨"iA", 2, false, none, none, [], "pA", none, none, none⟩,
       ⟨"iB", 1, false, none, none, [], "pB", none, none, none⟩] := by
  constructor
  · rfl
  · decide

/-- C4 (amended): a failed per-record update raises out of the commit loop to
the tick-level handler (where it is logged), so exactly the longest prefix of
`(record, result)` pairs whose updates succeed is committed; the updates
already made persist and the failed and remaining records stay unprocessed. -/
theorem commitLoop_eq_takeWhile_foldl (updateOk : String → Bool)
    (pairs : List (ImageModel × TagResult)) (store : List ImageModel) :
    commitLoop updateOk pairs store =
      (pairs.takeWhile fun pr => updateOk pr.1.id).foldl
        (fun st pr => update_image st pr.1.id (some pr.2.description)
          (some pr.2.tags) none (some true) none none none) store := by
  induction pairs generalizing store with
  | nil => rfl
  | cons pr rest ih =>
      obtain ⟨image, result⟩ := pr
      by_cases hok : updateOk image.id = true
      · simp [commitLoop, hok, List.takeWhile_cons, ih]
      · simp [commitLoop, hok, List.takeWhile_cons]

/-- C4 witness. -/
theorem commitLoop_eq_takeWhile_foldl_witness :
    commitLoop (fun i => i != "iA")
      [(⟨"iA", 2, false, none, none, [], "pA", none, none, none⟩,
        TagResult.mk ["t"] "d")]
      [⟨"iA", 2, false, none, none, [], "pA", none, none, none⟩] =
      ((([(⟨"iA", 2, false, none, none, [], "pA", none, none, none⟩,
          TagResult.mk ["t"] "d")] : List (ImageModel × TagResult)).takeWhile
            (fun pr => (fun i => i != "iA") pr.1.id)).foldl
        (fun st pr => update_image st pr.1.id (some pr.2.description)
          (some pr.2.tags) none (some true) none none none)
        [⟨"iA", 2, false, none, none, [], "pA", none, none, none⟩]) :=
  commitLoop_eq_takeWhile_foldl (fun i => i != "iA")
    [(⟨"iA", 2, false, none, none, [], "pA", none, none, none⟩,
      TagResult.mk ["t"] "d")]
    [⟨"iA", 2, false, none, none, [], "pA", none, none, none⟩]

/-- C2: a tick whose fetched batch is three records, the first of which has an
undecodable image while the other two decode.  The tagging step drops the bad
item and returns results aligned with — and here derived from — the two byte
payloads actually sent, alongside the valid-paths list `["g1", "g2"]`.  The
worker then pairs the results positionally with the fetched records, ignoring
the valid-paths list: the result computed from record `r1`'s bytes `"B1"` is
committed to record `r0` (whose image never decoded), the result computed from
`r2`'s bytes `"B2"` is committed to `r1`, and `r2` gets nothing. -/
theorem worker_mispairing_on_dropped_item :
    get_image_tags_batch_as_parts
      (fun p => if p = "g1" then some "B1" else if p = "g2" then some "B2" else none)
      (fun bs => .ok (bs.map fun b => TagResult.mk ["tag-" ++ b] ("desc-" ++ b)))
      ["bad", "g1", "g2"] =
      .ok [TagResult.mk ["tag-B1"] "desc-B1", TagResult.mk ["tag-B2"] "desc-B2"]
        ["g1", "g2"] ∧
    fire_image_tagging_worker_tick
      (fun p => if p = "g1" then some "B1" else if p = "g2" then some "B2" else none)
      (fun bs => .ok (bs.map fun b => TagResult.mk ["tag-" ++ b] ("desc-" ++ b)))
      (fun _ => true)
      [⟨"r0", 3, false, none, none, [], "bad", none, none, none⟩,
       ⟨"r1", 2, false, none, none, [], "g1", none, none, none⟩,
       ⟨"r2", 1, false, none, none, [], "g2", none, none, none⟩] =
      [⟨"r0", 3, true, none, some "desc-B1", ["tag-B1"], "bad", none, none, none⟩,
       ⟨"r1", 2, true, none, some "desc-B2", ["tag-B2"], "g1", none, none, none⟩,
       ⟨"r2", 1, false, none, none, [], "g2", none, none, none⟩] := by
  constructor
  · rfl
  · decide

/-! ## backend/app/agent/agent.py -/

/-- `VideoModel` columns, following `database/models.py` plus the spec-modelled
`audio_id` reference (the agent guards every use with
`hasattr(video, 'audio_id')`, which holds in this model). -/
structure VideoModel where
  id : String
  timestamp : Nat
  tagged : Bool
  embeddings : Option (List ℚ)
  description : Option String
  tags : List String
  frames : List String
  fps : ℚ
  duration : Option ℚ
  audio_id : Option String
  latitude : Option ℚ
  longitude : Option ℚ
deriving DecidableEq

/-- `order_by(VideoModel.timestamp.desc())`. -/
def videoTsDesc (a b : VideoModel) : Prop := b.timestamp ≤ a.timestamp

instance : DecidableRel videoTsDesc :=
  fun a b => inferInstanceAs (Decidable (b.timestamp ≤ a.timestamp))

instance : IsTotal VideoModel videoTsDesc := ⟨fun a b => le_total b.timestamp a.timestamp⟩

instance : IsTrans VideoModel videoTsDesc := ⟨fun _ _ _ h1 h2 => le_trans h2 h1⟩

/-- `ImageRepository.get_all_images` (image_repository.py lines 166-175):
all images ordered newest-first, offset and limited. -/
def get_all_images (images : List ImageModel) (skip limit : Nat) : List ImageModel :=
  (((images.insertionSort imageTsDesc).drop skip).take limit)

/-- `VideoRepository.get_all_videos` (video_repository.py lines 114-122):
all videos ordered newest-first, offset and limited. -/
def get_all_videos (videos : List VideoModel) (skip limit : Nat) : List VideoModel :=
  (((videos.insertionSort videoTsDesc).drop skip).take limit)

/-- The agent's audio lookup
`select(AudioModel.transcription).where(AudioModel.id == ...)` with
`scalar_one_or_none()`: `none` models both a missing row and a `NULL`
transcription. -/
def audioTranscriptionById (audios : List AudioModel) (aid : String) :
    Option String :=
  match audios.find? fun a => a.id == aid with
  | some a => a.transcription
  | none => none

/-- The statistics membership test of agent.py lines 91-107: the record has a
truthy `audio_id` and the looked-up transcription is truthy. -/
def hasAudioTranscription (audios : List AudioModel) (aid? : Option String) : Bool :=
  match aid? with
  | some aid => aid != "" && pyTruthyStr (audioTranscriptionById audios aid)
  | none => false

/-- The fixed prompt header of `prepare_context` (agent.py lines 67-81). -/
def headerParts : List String :=
  ["=== PHOTO & VIDEO COLLECTION ASSISTANT ===",
   "",
   "You are an AI assistant with complete access to a user's comprehensive photo and video collection database.",
   "You have detailed information about every image and video including AI-generated descriptions, detected objects,",
   "location data, audio transcriptions, and timestamps. Use ALL of this information to answer ANY query.",
   "",
   "TAGS represent detected objects, people, places, activities, and concepts in images/videos:",
   "- Objects: car, tree, building, furniture, animals, food items",
   "- People: person, child, adult, groups, faces",
   "- Places: park, street, indoor, outdoor, specific locations, landmarks",
   "- Activities: walking, eating, playing, sports, events",
   "- Concepts: weather conditions, colors, emotions, time of day",
   ""]

/-- The statistics block of `prepare_context` (agent.py lines 109-122). -/
def statsParts (nImages nVideos nTaggedImages nTaggedVideos nImagesLoc nVideosLoc
    nImagesAudio nVideosAudio : Nat) : List String :=
  ["COLLECTION OVERVIEW:",
   "• Total Images: " ++ toString nImages,
   "• Total Videos: " ++ toString nVideos,
   "• AI-Analyzed Images: " ++ toString nTaggedImages,
   "• AI-Analyzed Videos: " ++ toString nTaggedVideos,
   "• Images with GPS Location: " ++ toString nImagesLoc,
   "• Videos with GPS Location: " ++ toString nVideosLoc,
   "• Images with Audio: " ++ toString nImagesAudio,
   "• Videos with Audio: " ++ toString nVideosAudio,
   "",
   "DETAILED MEDIA DATA:",
   ""]

/-- The per-image detail block (agent.py lines 128-164); each Python
`if`-guard is the corresponding truthiness test.  `datetime`/float rendering
is modelled by `toString` on the modelled field types. -/
def imageDetail (idx : Nat) (img : ImageModel) (audios : List AudioModel) :
    List String :=
  ["IMAGE #" ++ toString idx ++ ":"] ++
  (if img.timestamp != 0 then ["TIMESTAMP: " ++ toString img.timestamp] else []) ++
  (match img.description with
   | some d => if d != "" then ["DESCRIPTION: " ++ d]
       else ["DESCRIPTION: [Not yet analyzed by AI]"]
   | none => ["DESCRIPTION: [Not yet analyzed by AI]"]) ++
  (if !img.tags.isEmpty then ["TAGS: " ++ pyJoin ", " img.tags] else []) ++
  (match img.latitude, img.longitude with
   | some la, some lo =>
       if la != 0 && lo != 0 then
         ["GPS: " ++ toString la ++ ", " ++ toString lo]
       else []
   | _, _ => []) ++
  (match img.audio_id with
   | some aid =>
       if aid != "" then
         match audioTranscriptionById audios aid with
         | some t =>
             if t != "" && pyStrip t != "" then
               ["AUDIO: \"" ++ pyStrip t ++ "\""]
             else []
         | none => []
       else []
   | none => []) ++
  [if img.tagged then "STATUS: Fully Analyzed" else "STATUS: Pending AI Analysis"]

/-- The image detail loop (agent.py lines 125-164): 1-based enumeration,
odd indices skipped, each emitted block followed by an empty line. -/
def imageDetailLoop (audios : List AudioModel) : Nat → List ImageModel → List String
  | _, [] => []
  | i, img :: rest =>
      if i % 2 != 0 then imageDetailLoop audios (i + 1) rest
      else imageDetail i img audios ++ [""] ++ imageDetailLoop audios (i + 1) rest

/-- Python runtime errors surfaced by the model. -/
inductive PyError where
  | nameError (name : String)
deriving DecidableEq

/-- The per-video detail loop of `prepare_context` (agent.py lines 167-204).
Its body appends to `video_info`, a variable that is never initialized
anywhere in the function (the image loop initializes `image_info` instead),
and the `STATUS` append at line 201 runs unconditionally, so the first
executed body — at the first even 1-based index — raises
`NameError: name 'video_info' is not defined` before emitting anything. -/
def videoDetailLoop : Nat → List VideoModel → Except PyError (List String)
  | _, [] => .ok []
  | i, _v :: rest =>
      if i % 2 != 0 then videoDetailLoop (i + 1) rest
      else .error (.nameError "video_info")

/-- The closing lines of the context (agent.py lines 206-210). -/
def footerParts : List String :=
  ["",
   "Answer queries using descriptions, tags, GPS coordinates, timestamps, and audio transcripts.",
   "Reference specific image/video numbers. Be conversational and helpful."]

/-- `ChatAgent` state: only `context_cache` matters to the context builder
(`chat_history` feeds `generate_response`, outside the modelled core). -/
structure AgentState where
  context_cache : Option String
deriving DecidableEq

/-- `ChatAgent.clear_context_cache` (agent.py lines 260-262). -/
def clear_context_cache (st : AgentState) : AgentState :=
  { st with context_cache := none }

/-- The context parts assembled before the video loop (agent.py lines 64-164):
header, collection statistics over the fetched samples (`limit=300` images,
`limit=200` videos), and the decimated per-image details. -/
def contextPartsBeforeVideos (db_images : List ImageModel)
    (db_videos : List VideoModel) (db_audios : List AudioModel) : List String :=
  headerParts ++
    statsParts (get_all_images db_images 0 300).length
      (get_all_videos db_videos 0 200).length
      ((get_all_images db_images 0 300).filter (·.tagged)).length
      ((get_all_videos db_videos 0 200).filter (·.tagged)).length
      ((get_all_images db_images 0 300).filter fun i =>
        pyTruthyRat i.latitude && pyTruthyRat i.longitude).length
      ((get_all_videos db_videos 0 200).filter fun v =>
        pyTruthyRat v.latitude && pyTruthyRat v.longitude).length
      ((get_all_images db_images 0 300).filter fun i =>
        hasAudioTranscription db_audios i.audio_id).length
      ((get_all_videos db_videos 0 200).filter fun v =>
        hasAudioTranscription db_audios v.audio_id).length ++
    imageDetailLoop db_audios 1 (get_all_images db_images 0 300)

/-- `ChatAgent.prepare_context` (agent.py lines 48-213) over a database
snapshot: on a truthy cache return it unchanged without querying; otherwise
query the store (the returned `Bool` records that store queries were issued
during this call), assemble the context parts, run the two detail loops — the
video loop raises `NameError` whenever it executes a body — and on success
join the parts with newlines and cache the result. -/
def prepare_context (st : AgentState) (db_images : List ImageModel)
    (db_videos : List VideoModel) (db_audios : List AudioModel) :
    Except PyError String × AgentState × Bool :=
  if pyTruthyStr st.context_cache then (.ok (st.context_cache.getD ""), st, false)
  else
    match videoDetailLoop 1 (get_all_videos db_videos 0 200) with
    | .error e => (.error e, st, true)
    | .ok videoParts =>
        (.ok (pyJoin "\n" (contextPartsBeforeVideos db_images db_videos db_audios ++
            videoParts ++ footerParts)),
         { st with context_cache := some (pyJoin "\n"
            (contextPartsBeforeVideos db_images db_videos db_audios ++
              videoParts ++ footerParts)) },
         true)

theorem pyJoin_cons_ne_empty (sep a : String) (l : List String) (ha : a ≠ "") :
    pyJoin sep (a :: l) ≠ "" := by
  have hlen : 0 < a.length := by
    cases a with
    | mk data =>
        cases data with
        | nil => exact absurd rfl ha
        | cons c cs => simp [String.length]
  cases l with
  | nil =>
      simpa [pyJoin] using ha
  | cons b rest =>
      intro h
      have := congrArg String.length h
      have hz : ("" : String).length = 0 := rfl
      simp only [pyJoin, String.length_append, hz] at this
      omega

/-- The assembled context always starts with the literal header line, so the
joined context string is never empty. -/
theorem context_string_ne_empty (db_images : List ImageModel)
    (db_videos : List VideoModel) (db_audios : List AudioModel)
    (videoParts : List String) :
    pyJoin "\n" (contextPartsBeforeVideos db_images db_videos db_audios ++
      videoParts ++ footerParts) ≠ "" := by
  have hshape : ∃ rest, contextPartsBeforeVideos db_images db_videos db_audios ++
      videoParts ++ footerParts =
      "=== PHOTO & VIDEO COLLECTION ASSISTANT ===" :: rest := ⟨_, rfl⟩
  obtain ⟨rest, hrest⟩ := hshape
  rw [hrest]
  exact pyJoin_cons_ne_empty _ _ _ (by decide)

/-- A successful `prepare_context` call leaves the returned string in the
cache, and that string is never empty (hence truthy for later calls). -/
theorem prepare_context_ok_cache {st st' : AgentState}
    {db_images : List ImageModel} {db_videos : List VideoModel}
    {db_audios : List AudioModel} {s : String} {q : Bool}
    (h : prepare_context st db_images db_videos db_audios = (.ok s, st', q)) :
    st'.context_cache = some s ∧ s ≠ "" := by
  unfold prepare_context at h
  by_cases hc : pyTruthyStr st.context_cache = true
  · rw [if_pos hc] at h
    cases hcc : st.context_cache with
    | none => rw [hcc] at hc; exact absurd hc (by simp [pyTruthyStr])
    | some t =>
        rw [hcc] at h hc
        have ht : t ≠ "" := by simpa [pyTruthyStr] using hc
        simp only [Option.getD_some, Prod.mk.injEq, Except.ok.injEq] at h
        obtain ⟨hs, hst, _⟩ := h
        subst hs
        rw [← hst, hcc]
        exact ⟨rfl, ht⟩
  · rw [if_neg hc] at h
    cases hv : videoDetailLoop 1 (get_all_videos db_videos 0 200) with
    | error e =>
        rw [hv] at h
        simp only [Prod.mk.injEq] at h
        exact absurd h.1 (by simp)
    | ok videoParts =>
        rw [hv] at h
        simp only [Prod.mk.injEq, Except.ok.injEq] at h
        obtain ⟨hs, hst, _⟩ := h
        subst hs
        rw [← hst]
        exact ⟨rfl, context_string_ne_empty db_images db_videos db_audios videoParts⟩

/-- A call that finds a truthy cached string returns it unchanged, with no
store query. -/
theorem prepare_context_cache_hit {st : AgentState} {s : String}
    (hc : st.context_cache = some s) (hs : s ≠ "")
    (db_images : List ImageModel) (db_videos : List VideoModel)
    (db_audios : List AudioModel) :
    prepare_context st db_images db_videos db_audios = (.ok s, st, false) := by
  unfold prepare_context
  rw [if_pos (by simp [pyTruthyStr, hc, hs]), hc]
  rfl

/-- A call that finds no cached string queries the store, whether or not the
build then succeeds. -/
theorem prepare_context_queries_of_cache_none {st : AgentState}
    (hc : st.context_cache = none) (db_images : List ImageModel)
    (db_videos : List VideoModel) (db_audios : List AudioModel) :
    (prepare_context st db_images db_videos db_audios).2.2 = true := by
  unfold prepare_context
  rw [if_neg (by simp [pyTruthyStr, hc])]
  cases hv : videoDetailLoop 1 (get_all_videos db_videos 0 200) with
  | error e => rfl
  | ok videoParts => rfl

/-- C9: after any successful `prepare_context` call, a second call — even
against a changed store — returns the identical cached string, the same state
and no store query; `clear_context_cache` discards the blob, so the next call
re-queries the store, and if that rebuild succeeds it is the only re-query:
the call after it is again served from the cache. -/
theorem context_cache_spec (db_images db_images2 : List ImageModel)
    (db_videos db_videos2 : List VideoModel)
    (db_audios db_audios2 : List AudioModel) (st st' : AgentState) (s : String)
    (q : Bool)
    (h : prepare_context st db_images db_videos db_audios = (.ok s, st', q)) :
    prepare_context st' db_images2 db_videos2 db_audios2 = (.ok s, st', false) ∧
    (prepare_context (clear_context_cache st') db_images db_videos
      db_audios).2.2 = true ∧
    ∀ s₂ st₂ q₂,
      prepare_context (clear_context_cache st') db_images db_videos db_audios =
        (.ok s₂, st₂, q₂) →
      q₂ = true ∧
        prepare_context st₂ db_images2 db_videos2 db_audios2 =
          (.ok s₂, st₂, false) := by
  obtain ⟨hcache, hne⟩ := prepare_context_ok_cache h
  refine ⟨prepare_context_cache_hit hcache hne _ _ _, ?_, ?_⟩
  · exact prepare_context_queries_of_cache_none rfl _ _ _
  · intro s₂ st₂ q₂ h₂
    obtain ⟨hcache₂, hne₂⟩ := prepare_context_ok_cache h₂
    constructor
    · have hq := prepare_context_queries_of_cache_none
        (show (clear_context_cache st').context_cache = none from rfl)
        db_images db_videos db_audios
      rw [h₂] at hq
      exact hq
    · exact prepare_context_cache_hit hcache₂ hne₂ _ _ _

/-- C9 witness: a state whose cache already holds a truthy string. -/
theorem context_cache_spec_witness :
    prepare_context ⟨some "CACHED"⟩ [] [] [] = (.ok "CACHED", ⟨some "CACHED"⟩, false) ∧
    (prepare_context ⟨some "CACHED"⟩ [] [] [] = (.ok "CACHED", ⟨some "CACHED"⟩, false) ∧
    (prepare_context (clear_context_cache ⟨some "CACHED"⟩) [] [] []).2.2 = true ∧
    ∀ s₂ st₂ q₂,
      prepare_context (clear_context_cache ⟨some "CACHED"⟩) [] [] [] =
        (.ok s₂, st₂, q₂) →
      q₂ = true ∧ prepare_context st₂ [] [] [] = (.ok s₂, st₂, false)) :=
  ⟨rfl, context_cache_spec [] [] [] [] [] [] ⟨some "CACHED"⟩ ⟨some "CACHED"⟩
    "CACHED" false rfl⟩

/-- The video loop raises as soon as it reaches its first even 1-based index,
which any list of two or more videos does. -/
theorem videoDetailLoop_error_of_two {l : List VideoModel} (h : 2 ≤ l.length) :
    videoDetailLoop 1 l = .error (.nameError "video_info") := by
  cases l with
  | nil => simp at h
  | cons v1 t =>
      cases t with
      | nil => simp at h
      | cons v2 rest => simp [videoDetailLoop]

/-- C10: whenever the build runs (no truthy cache) and the video fetch returns
at least two videos, `prepare_context` raises `NameError` on the uninitialized
`video_info` before producing any string: the error is returned, the cache is
left exactly as it was (never populated), and the store had been queried. -/
theorem prepare_context_video_name_error (st : AgentState)
    (db_images : List ImageModel) (db_videos : List VideoModel)
    (db_audios : List AudioModel)
    (hc : pyTruthyStr st.context_cache = false)
    (hv : 2 ≤ (get_all_videos db_videos 0 200).length) :
    prepare_context st db_images db_videos db_audios =
      (.error (.nameError "video_info"), st, true) := by
  unfold prepare_context
  rw [if_neg (by simp [hc]), videoDetailLoop_error_of_two hv]

/-- C10 witness: an empty cache and two stored videos. -/
theorem prepare_context_video_name_error_witness :
    pyTruthyStr (AgentState.mk none).context_cache = false ∧
    2 ≤ (get_all_videos
      [⟨"v1", 1, false, none, none, [], [], 60, none, none, none, none⟩,
       ⟨"v2", 2, false, none, none, [], [], 60, none, none, none, none⟩] 0 200).length ∧
    prepare_context ⟨none⟩ []
      [⟨"v1", 1, false, none, none, [], [], 60, none, none, none, none⟩,
       ⟨"v2", 2, false, none, none, [], [], 60, none, none, none, none⟩] [] =
      (.error (.nameError "video_info"), ⟨none⟩, true) :=
  ⟨rfl, by decide,
    prepare_context_video_name_error ⟨none⟩ []
      [⟨"v1", 1, false, none, none, [], [], 60, none, none, none, none⟩,
       ⟨"v2", 2, false, none, none, [], [], 60, none, none, none, none⟩] []
      rfl (by decide)⟩

end HTN
